import Mathlib

/-!
Verification of the `one-p` conversation-orchestration core.

This file gives a shallow embedding, in Lean 4, of the parts of the
repository that the specification's testable properties talk about:

* the story / feature data model (`src/models/index.ts`),
* the INVEST heuristic and the nine tool handlers of `ToolExecutor`
  (`src/ai/tools/definitions.ts`),
* the substring search of `StorageManager.searchStories`
  (`src/storage/index.ts`),
* the round loop of `ConversationManager`
  (`src/ai/conversation.ts`, shipped inside `src/ai/prompts/system.ts`
  in this source drop).

Effectful TypeScript is modelled by explicit oracles: the interactive
prompts and the document store are fields of an `Env` record whose
operations return `Except String α` (a thrown JavaScript error is
`Except.error message`); the model gateway is a list of
`Except String Response` values consumed one per round.  Machine-level
details that no property depends on (terminal rendering, file paths,
YAML frontmatter) are omitted.
-/

/-- JavaScript `x || d` for an optional string: `undefined` and the empty
string are falsy and fall back to the default. -/
def jsOrStr (x : Option String) (d : String) : String :=
  match x with
  | none => d
  | some s => if s = "" then d else s

/-- JavaScript truthiness of an optional string (`undefined` and `""` are
falsy). -/
def jsTruthyStr (x : Option String) : Bool :=
  match x with
  | none => false
  | some s => s ≠ ""

/-- JavaScript `Math.round (sum / 6)` for a natural `sum`: `Math.round x`
is `⌊x + 1/2⌋`, and `⌊sum/6 + 1/2⌋ = ⌊(sum + 3) / 6⌋`. -/
def mathRoundDiv6 (sum : Nat) : Nat :=
  (sum + 3) / 6

/-- JavaScript `String.prototype.toLowerCase`, character by character
(the stories at issue are ASCII, where this agrees with JavaScript). -/
def strToLower (s : String) : String :=
  s.map Char.toLower

/-- Occurrence of `needle` as a contiguous run inside `hay`. -/
def listIsInfixOf (needle hay : List Char) : Bool :=
  match hay with
  | [] => needle.isEmpty
  | _ :: t => needle.isPrefixOf hay || listIsInfixOf needle t

/-- One acceptance criterion of a story (`AcceptanceCriterionSchema`). -/
structure AcceptanceCriterion where
  text : String
  completed : Bool
deriving DecidableEq, Repr

/-- A story record (`StorySchema` of `src/models/index.ts`).  The string
unions (`status`, `priority`, `type`) are kept as strings, as in the
source, so that comparisons mirror JavaScript `===`. -/
structure Story where
  id : String
  title : String
  type : String
  status : String
  priority : String
  feature : Option String
  persona : Option String
  asA : Option String
  iWant : Option String
  soThat : Option String
  acceptanceCriteria : List AcceptanceCriterion
  openQuestions : List String
  edgeCases : List String
  dependencies : List String
  relatedStories : List String
  estimate : Option String
  tags : List String
  createdAt : String
  updatedAt : String
deriving DecidableEq, Repr

/-- A feature record (`FeatureSchema` of `src/models/index.ts`). -/
structure Feature where
  id : String
  title : String
  description : Option String
  status : String
  priority : String
  successCriteria : List String
  stories : List String
  tags : List String
  createdAt : String
  updatedAt : String
deriving DecidableEq, Repr

/-- One scored INVEST dimension (`InvestAnalysis` entries). -/
structure InvestDimension where
  score : Nat
  feedback : String
deriving DecidableEq, Repr

/-- The INVEST analysis record (`InvestAnalysis` of `src/models/index.ts`). -/
structure InvestAnalysis where
  independent : InvestDimension
  negotiable : InvestDimension
  valuable : InvestDimension
  estimable : InvestDimension
  small : InvestDimension
  testable : InvestDimension
  overallScore : Nat
  suggestions : List String
deriving DecidableEq, Repr

namespace ToolExecutor

/-- Independent dimension: lines 624-630 of `definitions.ts`. -/
def independentDim (story : Story) : InvestDimension :=
  if story.dependencies.length = 0 then
    ⟨10, "Story has no dependencies"⟩
  else
    ⟨5, "Story has " ++ toString story.dependencies.length ++ " dependencies"⟩

/-- Negotiable dimension: lines 631-637 of `definitions.ts`. -/
def negotiableDim (story : Story) : InvestDimension :=
  if story.openQuestions.length > 0 then
    ⟨8, "Open questions indicate room for negotiation"⟩
  else
    ⟨6, "Consider adding open questions for flexibility"⟩

/-- Valuable dimension: lines 638-641 of `definitions.ts`.  JavaScript
`story.soThat ? 8 : 4` treats a missing or empty `soThat` as falsy. -/
def valuableDim (story : Story) : InvestDimension :=
  if jsTruthyStr story.soThat then
    ⟨8, "Value proposition is defined"⟩
  else
    ⟨4, "Missing \"so that\" clause"⟩

/-- Estimable dimension: lines 642-648 of `definitions.ts`. -/
def estimableDim (story : Story) : InvestDimension :=
  if story.acceptanceCriteria.length ≥ 3 then
    ⟨8, "Sufficient acceptance criteria for estimation"⟩
  else
    ⟨5, "Add more acceptance criteria for better estimation"⟩

/-- Small dimension: lines 649-655 of `definitions.ts`. -/
def smallDim (story : Story) : InvestDimension :=
  if story.acceptanceCriteria.length ≤ 7 then
    ⟨8, "Story appears to be appropriately sized"⟩
  else
    ⟨4, "Consider splitting - too many acceptance criteria"⟩

/-- Testable dimension: lines 656-662 of `definitions.ts`. -/
def testableDim (story : Story) : InvestDimension :=
  if story.acceptanceCriteria.length > 0 then
    ⟨8, "Acceptance criteria provide testability"⟩
  else
    ⟨2, "Add acceptance criteria for testability"⟩

/-- Overall score: lines 668-676 of `definitions.ts`
(`Math.round` of the mean of the six dimension scores). -/
def overallScoreOf (story : Story) : Nat :=
  mathRoundDiv6
    ((independentDim story).score + (negotiableDim story).score +
      (valuableDim story).score + (estimableDim story).score +
      (smallDim story).score + (testableDim story).score)

/-- Suggestion generation: lines 678-693 of `definitions.ts`.  The source
pushes a fixed message for each of independent, valuable, estimable,
small and testable scoring below 7; there is no push for negotiable. -/
def investSuggestions (story : Story) : List String :=
  (if (independentDim story).score < 7 then
    ["Consider reducing dependencies on other stories"] else []) ++
  (if (valuableDim story).score < 7 then
    ["Clarify the business value with a stronger \"so that\" clause"] else []) ++
  (if (estimableDim story).score < 7 then
    ["Add more specific acceptance criteria"] else []) ++
  (if (smallDim story).score < 7 then
    ["Consider breaking this story into smaller pieces"] else []) ++
  (if (testableDim story).score < 7 then
    ["Add measurable acceptance criteria"] else [])

/-- The pure INVEST analysis computed by
`ToolExecutor.analyzeStoryQuality` (lines 622-693 of `definitions.ts`)
from the loaded story record. -/
def investAnalysis (story : Story) : InvestAnalysis :=
  { independent := independentDim story
    negotiable := negotiableDim story
    valuable := valuableDim story
    estimable := estimableDim story
    small := smallDim story
    testable := testableDim story
    overallScore := overallScoreOf story
    suggestions := investSuggestions story }

end ToolExecutor

/-- The six INVEST dimensions, for stating per-dimension properties. -/
inductive InvestDim
  | independent
  | negotiable
  | valuable
  | estimable
  | small
  | testable
deriving DecidableEq, Repr

/-- Project the score of one dimension out of an analysis. -/
def dimScore (a : InvestAnalysis) : InvestDim → Nat
  | .independent => a.independent.score
  | .negotiable => a.negotiable.score
  | .valuable => a.valuable.score
  | .estimable => a.estimable.score
  | .small => a.small.score
  | .testable => a.testable.score

/-- The fixed per-dimension suggestion message pushed by lines 678-693 of
`definitions.ts`; the source has no message for the negotiable
dimension. -/
def dimSuggestionMessage : InvestDim → Option String
  | .independent => some "Consider reducing dependencies on other stories"
  | .negotiable => none
  | .valuable => some "Clarify the business value with a stronger \"so that\" clause"
  | .estimable => some "Add more specific acceptance criteria"
  | .small => some "Consider breaking this story into smaller pieces"
  | .testable => some "Add measurable acceptance criteria"

namespace StorageManager

/-- The lower-cased search text of a story, as built by
`StorageManager.searchStories` (lines 371-384 of `src/storage/index.ts`):
the title, the optional `asA` / `iWant` / `soThat` fields, the acceptance
criterion texts, the open questions, the edge cases and the tags, with
`undefined` and empty entries dropped (`filter(Boolean)`), joined with a
space and lower-cased. -/
def searchText (story : Story) : String :=
  strToLower (String.intercalate " "
    ((([some story.title, story.asA, story.iWant, story.soThat] ++
        story.acceptanceCriteria.map (fun ac => some ac.text) ++
        story.openQuestions.map some ++
        story.edgeCases.map some ++
        story.tags.map some).filterMap id).filter (fun s => s ≠ "")))

/-- Substring test used by JavaScript `String.prototype.includes`. -/
def strIncludes (hay needle : String) : Bool :=
  listIsInfixOf needle.toList hay.toList

/-- `StorageManager.searchStories` (lines 367-388 of
`src/storage/index.ts`), applied to the list of all stories returned by
`listStories()`: keep exactly the stories whose search text contains the
lower-cased query. -/
def searchStories (query : String) (allStories : List Story) : List Story :=
  allStories.filter (fun story => strIncludes (searchText story) (strToLower query))

end StorageManager

/-- One multiple-choice option of `ask_user_question` (`QuestionOption`
of `src/ui/index.ts`). -/
structure QuestionOption where
  label : String
  value : String
  description : Option String
deriving DecidableEq, Repr

/-- The answer the user gives to `ask_user_question`: JavaScript
`string | string[]`. -/
inductive Answer
  | single (s : String)
  | multi (l : List String)
deriving DecidableEq, Repr

/-- Input of the `create_story` tool.  Required schema fields are plain,
optional ones are `Option` (`undefined` = `none`). -/
structure CreateStoryInput where
  id : String
  title : String
  feature : Option String
  asA : String
  iWant : String
  soThat : String
  acceptanceCriteria : Option (List String)
  priority : Option String
  edgeCases : Option (List String)
  openQuestions : Option (List String)
deriving DecidableEq, Repr

/-- The `updates` object of `update_story`: a field is `some` exactly
when the key is present in the JavaScript object. -/
structure StoryUpdates where
  title : Option String
  status : Option String
  priority : Option String
  asA : Option String
  iWant : Option String
  soThat : Option String
  acceptanceCriteria : Option (List String)
  edgeCases : Option (List String)
  openQuestions : Option (List String)
deriving DecidableEq, Repr

/-- Input of the `update_story` tool. -/
structure UpdateStoryInput where
  id : String
  feature : Option String
  updates : StoryUpdates
deriving DecidableEq, Repr

/-- Input of the `list_stories` tool. -/
structure ListStoriesInput where
  feature : Option String
  status : Option String
deriving DecidableEq, Repr

/-- Input of the `create_feature` tool. -/
structure CreateFeatureInput where
  id : String
  title : String
  description : Option String
  successCriteria : Option (List String)
  priority : Option String
deriving DecidableEq, Repr

/-- Input of the `search_stories` tool. -/
structure SearchStoriesInput where
  query : String
deriving DecidableEq, Repr

/-- Input of the `ask_user_question` tool. -/
structure AskUserQuestionInput where
  question : String
  options : List QuestionOption
  allowCustom : Option Bool
  multiSelect : Option Bool
deriving DecidableEq, Repr

/-- Input of the `present_draft` tool. -/
structure PresentDraftInput where
  title : String
  asA : String
  iWant : String
  soThat : String
  acceptanceCriteria : List String
  priority : Option String
  edgeCases : Option (List String)
  openQuestions : Option (List String)
deriving DecidableEq, Repr

/-- Input of the `analyze_story_quality` tool. -/
structure AnalyzeStoryQualityInput where
  storyId : String
  featureId : String
deriving DecidableEq, Repr

/-- A tool input object, tagged by the shape the model sent.  `other`
stands for any object that fits none of the nine schemas. -/
inductive ToolInput
  | createStory (i : CreateStoryInput)
  | updateStory (i : UpdateStoryInput)
  | listStories (i : ListStoriesInput)
  | createFeature (i : CreateFeatureInput)
  | listFeatures
  | searchStories (i : SearchStoriesInput)
  | askUserQuestion (i : AskUserQuestionInput)
  | presentDraft (i : PresentDraftInput)
  | analyzeStoryQuality (i : AnalyzeStoryQualityInput)
  | other
deriving DecidableEq, Repr

/-- Summary of a story in the `list_stories` result payload
(lines 416-422 of `definitions.ts`). -/
structure StorySummary where
  id : String
  title : String
  status : String
  priority : String
  feature : Option String
deriving DecidableEq, Repr

/-- Summary of a story in the `search_stories` result payload
(lines 505-510 of `definitions.ts`). -/
structure SearchStorySummary where
  id : String
  title : String
  status : String
  feature : Option String
deriving DecidableEq, Repr

/-- Summary of a feature in the `list_features` result payload
(lines 478-482 of `definitions.ts`). -/
structure FeatureSummary where
  id : String
  title : String
  status : String
deriving DecidableEq, Repr

/-- The `data` payload of a successful `ToolResult`, one constructor per
handler shape. -/
inductive ToolData
  | createStoryData (message storyId feature : String)
  | updateStoryData (message : String)
  | listStoriesData (count : Nat) (stories : List StorySummary)
  | createFeatureData (message featureId : String)
  | listFeaturesData (count : Nat) (features : List FeatureSummary)
  | searchStoriesData (query : String) (count : Nat) (stories : List SearchStorySummary)
  | questionData (question : String) (answer : Answer)
  | draftData (approved : Bool) (message : Option String) (feedback : Option String)
  | analysisData (storyId : String) (analysis : InvestAnalysis)
deriving DecidableEq, Repr

/-- The `ToolResult` envelope of `src/ai/tools/index.ts`: every optional
field is `none` when the handler leaves it `undefined`. -/
structure ToolResult where
  success : Bool
  data : Option ToolData := none
  error : Option String := none
  requiresUserInput : Option Bool := none
  userInput : Option Answer := none
deriving DecidableEq, Repr

/-- The effect monad of the embedding: a JavaScript computation that
either returns a value or throws an error carrying a message. -/
abbrev JsM (α : Type) : Type := Except String α

/-- The capabilities the `ToolExecutor` consumes: the `StorageManager`
operations and the interactive prompts of `src/ui/index.ts`.  Each may
throw (`Except.error`); an interactive prompt cancelled by the user
surfaces as a thrown error, as inquirer does. -/
structure Env where
  now : String
  storageCreateStory : Story → JsM Unit
  storageUpdateStory : Story → JsM Unit
  storageGetStory : String → String → JsM (Option Story)
  storageListStories : Option String → JsM (List Story)
  storageCreateFeature : Feature → JsM Unit
  storageListFeatures : JsM (List Feature)
  uiAskSelect : String → List QuestionOption → JsM String
  uiAskMultiSelect : String → List QuestionOption → JsM (List String)
  uiAskQuestion : String → JsM String
  uiAskConfirm : String → Bool → JsM Bool

namespace ToolExecutor

/-- The `try { body } catch (error) { return failure }` wrapper every
handler of `definitions.ts` uses: a thrown error is converted into
`{success: false, error: prefixMsg + message}`. -/
def tryCatchResult (prefixMsg : String) (body : JsM ToolResult) : JsM ToolResult :=
  match body with
  | .ok r => .ok r
  | .error m => .ok { success := false, error := some (prefixMsg ++ m) }

/-- Reading the fields a handler needs out of an input object of the
wrong shape throws a `TypeError`; the message is a fixed stand-in for
the JavaScript one. -/
def shapeError : String := "Cannot read properties of undefined"

def expectCreateStory : ToolInput → JsM CreateStoryInput
  | .createStory i => .ok i
  | _ => .error shapeError

def expectUpdateStory : ToolInput → JsM UpdateStoryInput
  | .updateStory i => .ok i
  | _ => .error shapeError

def expectListStories : ToolInput → JsM ListStoriesInput
  | .listStories i => .ok i
  | _ => .error shapeError

def expectCreateFeature : ToolInput → JsM CreateFeatureInput
  | .createFeature i => .ok i
  | _ => .error shapeError

def expectSearchStories : ToolInput → JsM SearchStoriesInput
  | .searchStories i => .ok i
  | _ => .error shapeError

def expectAskUserQuestion : ToolInput → JsM AskUserQuestionInput
  | .askUserQuestion i => .ok i
  | _ => .error shapeError

def expectPresentDraft : ToolInput → JsM PresentDraftInput
  | .presentDraft i => .ok i
  | _ => .error shapeError

def expectAnalyzeStoryQuality : ToolInput → JsM AnalyzeStoryQualityInput
  | .analyzeStoryQuality i => .ok i
  | _ => .error shapeError

/-- Body of `ToolExecutor.createStory` (lines 317-358 of
`definitions.ts`). -/
def createStoryBody (input : ToolInput) (env : Env) : JsM ToolResult := do
  let i ← expectCreateStory input
  let story : Story :=
    { id := i.id
      title := i.title
      type := "user-story"
      status := "draft"
      priority := jsOrStr i.priority "medium"
      feature := i.feature
      persona := none
      asA := some i.asA
      iWant := some i.iWant
      soThat := some i.soThat
      acceptanceCriteria :=
        (i.acceptanceCriteria.getD []).map (fun text => ⟨text, false⟩)
      openQuestions := i.openQuestions.getD []
      edgeCases := i.edgeCases.getD []
      dependencies := []
      relatedStories := []
      estimate := none
      tags := []
      createdAt := env.now
      updatedAt := env.now }
  env.storageCreateStory story
  .ok { success := true
        data := some (.createStoryData
          ("Story \"" ++ story.title ++ "\" created successfully")
          story.id (jsOrStr story.feature "backlog")) }

/-- `ToolExecutor.createStory` with its `try`/`catch`. -/
def createStory (input : ToolInput) (env : Env) : JsM ToolResult :=
  tryCatchResult "Failed to create story: " (createStoryBody input env)

/-- Body of `ToolExecutor.updateStory` (lines 360-397 of
`definitions.ts`): load, shallow-merge the `updates` object, re-derive
acceptance criteria when present, rewrite `updatedAt`, persist. -/
def updateStoryBody (input : ToolInput) (env : Env) : JsM ToolResult := do
  let i ← expectUpdateStory input
  let storyId := i.id
  let featureId := jsOrStr i.feature "backlog"
  let existingStory? ← env.storageGetStory featureId storyId
  match existingStory? with
  | none =>
    .ok { success := false
          error := some ("Story \"" ++ storyId ++ "\" not found in feature \""
            ++ featureId ++ "\"") }
  | some existingStory =>
    let u := i.updates
    let updatedStory : Story :=
      { existingStory with
        title := u.title.getD existingStory.title
        status := u.status.getD existingStory.status
        priority := u.priority.getD existingStory.priority
        asA := match u.asA with | some v => some v | none => existingStory.asA
        iWant := match u.iWant with | some v => some v | none => existingStory.iWant
        soThat := match u.soThat with | some v => some v | none => existingStory.soThat
        edgeCases := u.edgeCases.getD existingStory.edgeCases
        openQuestions := u.openQuestions.getD existingStory.openQuestions
        updatedAt := env.now }
    let updatedStory :=
      match u.acceptanceCriteria with
      | some textList =>
        { updatedStory with
          acceptanceCriteria := textList.map (fun text => ⟨text, false⟩) }
      | none => updatedStory
    env.storageUpdateStory updatedStory
    .ok { success := true
          data := some (.updateStoryData
            ("Story \"" ++ storyId ++ "\" updated successfully")) }

/-- `ToolExecutor.updateStory` with its `try`/`catch`. -/
def updateStory (input : ToolInput) (env : Env) : JsM ToolResult :=
  tryCatchResult "Failed to update story: " (updateStoryBody input env)

/-- Body of `ToolExecutor.listStories` (lines 399-431 of
`definitions.ts`).  The status filter only applies when the field is a
truthy string, mirroring `if (statusFilter)`. -/
def listStoriesBody (input : ToolInput) (env : Env) : JsM ToolResult := do
  let i ← expectListStories input
  let stories ← env.storageListStories i.feature
  let stories :=
    match i.status with
    | some statusFilter =>
      if statusFilter = "" then stories
      else stories.filter (fun s => s.status = statusFilter)
    | none => stories
  .ok { success := true
        data := some (.listStoriesData stories.length
          (stories.map (fun s => ⟨s.id, s.title, s.status, s.priority, s.feature⟩))) }

/-- `ToolExecutor.listStories` with its `try`/`catch`. -/
def listStories (input : ToolInput) (env : Env) : JsM ToolResult :=
  tryCatchResult "Failed to list stories: " (listStoriesBody input env)

/-- Body of `ToolExecutor.createFeature` (lines 433-463 of
`definitions.ts`). -/
def createFeatureBody (input : ToolInput) (env : Env) : JsM ToolResult := do
  let i ← expectCreateFeature input
  let feature : Feature :=
    { id := i.id
      title := i.title
      description := i.description
      status := "draft"
      priority := jsOrStr i.priority "medium"
      successCriteria := i.successCriteria.getD []
      stories := []
      tags := []
      createdAt := env.now
      updatedAt := env.now }
  env.storageCreateFeature feature
  .ok { success := true
        data := some (.createFeatureData
          ("Feature \"" ++ feature.title ++ "\" created successfully")
          feature.id) }

/-- `ToolExecutor.createFeature` with its `try`/`catch`. -/
def createFeature (input : ToolInput) (env : Env) : JsM ToolResult :=
  tryCatchResult "Failed to create feature: " (createFeatureBody input env)

/-- Body of `ToolExecutor.listFeatures` (lines 465-491 of
`definitions.ts`); the per-feature `listStories` calls feed the display
only, but can still throw. -/
def listFeaturesBody (env : Env) : JsM ToolResult := do
  let features ← env.storageListFeatures
  let _ ← features.mapM (fun f => env.storageListStories (some f.id))
  .ok { success := true
        data := some (.listFeaturesData features.length
          (features.map (fun f => ⟨f.id, f.title, f.status⟩))) }

/-- `ToolExecutor.listFeatures` with its `try`/`catch`. -/
def listFeatures (env : Env) : JsM ToolResult :=
  tryCatchResult "Failed to list features: " (listFeaturesBody env)

/-- Body of `ToolExecutor.searchStories` (lines 493-519 of
`definitions.ts`): `StorageManager.searchStories` applied to all
stories. -/
def searchStoriesBody (input : ToolInput) (env : Env) : JsM ToolResult := do
  let i ← expectSearchStories input
  let allStories ← env.storageListStories none
  let stories := StorageManager.searchStories i.query allStories
  .ok { success := true
        data := some (.searchStoriesData i.query stories.length
          (stories.map (fun s => ⟨s.id, s.title, s.status, s.feature⟩))) }

/-- `ToolExecutor.searchStories` with its `try`/`catch`. -/
def searchStories (input : ToolInput) (env : Env) : JsM ToolResult :=
  tryCatchResult "Failed to search stories: " (searchStoriesBody input env)

/-- The synthetic option appended when `allowCustom` holds
(lines 534-540 of `definitions.ts`). -/
def customOption : QuestionOption :=
  ⟨"Other (custom answer)", "__custom__", some "Enter your own answer"⟩

/-- Body of `ToolExecutor.askUserQuestion` (lines 521-573 of
`definitions.ts`). -/
def askUserQuestionBody (input : ToolInput) (env : Env) : JsM ToolResult := do
  let i ← expectAskUserQuestion input
  let allowCustom := i.allowCustom.getD true
  let multiSelect := i.multiSelect.getD false
  let questionOptions := i.options
  let questionOptions :=
    if allowCustom then questionOptions ++ [customOption] else questionOptions
  let answer : Answer ←
    if multiSelect then do
      let l ← env.uiAskMultiSelect i.question questionOptions
      .ok (Answer.multi l)
    else do
      let s ← env.uiAskSelect i.question questionOptions
      .ok (Answer.single s)
  let answer : Answer ←
    match answer with
    | .single s =>
      if s = "__custom__" then do
        let customAnswer ← env.uiAskQuestion "Please enter your answer:"
        .ok (Answer.single customAnswer)
      else .ok (Answer.single s)
    | .multi l =>
      if l.contains "__custom__" then do
        let customAnswer ← env.uiAskQuestion "Please enter your answer:"
        .ok (Answer.multi ((l.filter (fun a => a ≠ "__custom__")) ++ [customAnswer]))
      else .ok (Answer.multi l)
  .ok { success := true
        data := some (.questionData i.question answer)
        requiresUserInput := some true
        userInput := some answer }

/-- `ToolExecutor.askUserQuestion` with its `try`/`catch`: note that it
also catches a cancelled prompt. -/
def askUserQuestion (input : ToolInput) (env : Env) : JsM ToolResult :=
  tryCatchResult "Failed to get user input: " (askUserQuestionBody input env)

/-- Body of `ToolExecutor.presentDraft` (lines 575-610 of
`definitions.ts`). -/
def presentDraftBody (input : ToolInput) (env : Env) : JsM ToolResult := do
  let _i ← expectPresentDraft input
  let approved ← env.uiAskConfirm "Do you approve this story draft?" true
  if approved then
    .ok { success := true
          data := some (.draftData true (some "Draft approved by user") none) }
  else do
    let feedback ← env.uiAskQuestion "What would you like to change?"
    .ok { success := true
          data := some (.draftData false none (some feedback)) }

/-- `ToolExecutor.presentDraft` with its `try`/`catch`: note that it also
catches a cancelled prompt. -/
def presentDraft (input : ToolInput) (env : Env) : JsM ToolResult :=
  tryCatchResult "Failed to present draft: " (presentDraftBody input env)

/-- Body of `ToolExecutor.analyzeStoryQuality` (lines 612-708 of
`definitions.ts`). -/
def analyzeStoryQualityBody (input : ToolInput) (env : Env) : JsM ToolResult := do
  let i ← expectAnalyzeStoryQuality input
  let story? ← env.storageGetStory i.featureId i.storyId
  match story? with
  | none =>
    .ok { success := false
          error := some ("Story \"" ++ i.storyId ++ "\" not found") }
  | some story =>
    .ok { success := true
          data := some (.analysisData i.storyId (investAnalysis story)) }

/-- `ToolExecutor.analyzeStoryQuality` with its `try`/`catch`. -/
def analyzeStoryQuality (input : ToolInput) (env : Env) : JsM ToolResult :=
  tryCatchResult "Failed to analyze story: " (analyzeStoryQualityBody input env)

/-- `ToolExecutor.execute` (lines 292-315 of `definitions.ts`): dispatch
on the tool name string, with the `default` branch returning the
unknown-tool failure. -/
def execute (toolName : String) (input : ToolInput) (env : Env) : JsM ToolResult :=
  if toolName = "create_story" then createStory input env
  else if toolName = "update_story" then updateStory input env
  else if toolName = "list_stories" then listStories input env
  else if toolName = "create_feature" then createFeature input env
  else if toolName = "list_features" then listFeatures env
  else if toolName = "search_stories" then searchStories input env
  else if toolName = "ask_user_question" then askUserQuestion input env
  else if toolName = "present_draft" then presentDraft input env
  else if toolName = "analyze_story_quality" then analyzeStoryQuality input env
  else .ok { success := false, error := some ("Unknown tool: " ++ toolName) }

end ToolExecutor

/-- The nine registered tool names of `toolDefinitions`. -/
def registeredToolNames : List String :=
  ["create_story", "update_story", "list_stories", "create_feature",
   "list_features", "search_stories", "ask_user_question", "present_draft",
   "analyze_story_quality"]

/-- Escape one character for a JSON string literal. -/
def jsonEscapeChar (c : Char) : String :=
  if c = '\\' then "\\\\"
  else if c = '"' then "\\\""
  else String.singleton c

/-- Escape a string for a JSON string literal. -/
def jsonEscape (s : String) : String :=
  String.join (s.toList.map jsonEscapeChar)

/-- A JSON string literal. -/
def jsonStr (s : String) : String :=
  "\"" ++ jsonEscape s ++ "\""

/-- A JSON object from already-serialized field values. -/
def jsonObj (fields : List (String × String)) : String :=
  "\x7b" ++
    String.intercalate "," (fields.map (fun f => jsonStr f.1 ++ ":" ++ f.2)) ++
  "\x7d"

/-- A JSON array from already-serialized elements. -/
def jsonArr (elems : List String) : String :=
  "[" ++ String.intercalate "," elems ++ "]"

/-- Serialize an answer (`string | string[]`). -/
def jsonOfAnswer : Answer → String
  | .single s => jsonStr s
  | .multi l => jsonArr (l.map jsonStr)

/-- Serialize a `list_stories` story summary; `JSON.stringify` drops
`undefined` fields. -/
def jsonOfStorySummary (s : StorySummary) : String :=
  jsonObj ([("id", jsonStr s.id), ("title", jsonStr s.title),
    ("status", jsonStr s.status), ("priority", jsonStr s.priority)] ++
    (match s.feature with
     | some f => [("feature", jsonStr f)]
     | none => []))

/-- Serialize a `search_stories` story summary. -/
def jsonOfSearchStorySummary (s : SearchStorySummary) : String :=
  jsonObj ([("id", jsonStr s.id), ("title", jsonStr s.title),
    ("status", jsonStr s.status)] ++
    (match s.feature with
     | some f => [("feature", jsonStr f)]
     | none => []))

/-- Serialize a `list_features` feature summary. -/
def jsonOfFeatureSummary (f : FeatureSummary) : String :=
  jsonObj [("id", jsonStr f.id), ("title", jsonStr f.title),
    ("status", jsonStr f.status)]

/-- Serialize one INVEST dimension. -/
def jsonOfInvestDimension (d : InvestDimension) : String :=
  jsonObj [("score", toString d.score), ("feedback", jsonStr d.feedback)]

/-- Serialize an INVEST analysis. -/
def jsonOfInvestAnalysis (a : InvestAnalysis) : String :=
  jsonObj [("independent", jsonOfInvestDimension a.independent),
    ("negotiable", jsonOfInvestDimension a.negotiable),
    ("valuable", jsonOfInvestDimension a.valuable),
    ("estimable", jsonOfInvestDimension a.estimable),
    ("small", jsonOfInvestDimension a.small),
    ("testable", jsonOfInvestDimension a.testable),
    ("overallScore", toString a.overallScore),
    ("suggestions", jsonArr (a.suggestions.map jsonStr))]

/-- Serialize a `data` payload. -/
def jsonOfToolData : ToolData → String
  | .createStoryData message storyId feature =>
    jsonObj [("message", jsonStr message), ("storyId", jsonStr storyId),
      ("feature", jsonStr feature)]
  | .updateStoryData message => jsonObj [("message", jsonStr message)]
  | .listStoriesData count stories =>
    jsonObj [("count", toString count),
      ("stories", jsonArr (stories.map jsonOfStorySummary))]
  | .createFeatureData message featureId =>
    jsonObj [("message", jsonStr message), ("featureId", jsonStr featureId)]
  | .listFeaturesData count features =>
    jsonObj [("count", toString count),
      ("features", jsonArr (features.map jsonOfFeatureSummary))]
  | .searchStoriesData query count stories =>
    jsonObj [("query", jsonStr query), ("count", toString count),
      ("stories", jsonArr (stories.map jsonOfSearchStorySummary))]
  | .questionData question answer =>
    jsonObj [("question", jsonStr question), ("answer", jsonOfAnswer answer)]
  | .draftData approved message feedback =>
    jsonObj ([("approved", if approved then "true" else "false")] ++
      (match message with
       | some m => [("message", jsonStr m)]
       | none => []) ++
      (match feedback with
       | some f => [("feedback", jsonStr f)]
       | none => []))
  | .analysisData storyId analysis =>
    jsonObj [("storyId", jsonStr storyId),
      ("analysis", jsonOfInvestAnalysis analysis)]

/-- `JSON.stringify(result)` as used at line 185 of `conversation.ts`,
with `undefined` fields dropped and keys in declaration order. -/
def jsonOfToolResult (r : ToolResult) : String :=
  jsonObj ([("success", if r.success then "true" else "false")] ++
    (match r.data with
     | some d => [("data", jsonOfToolData d)]
     | none => []) ++
    (match r.error with
     | some e => [("error", jsonStr e)]
     | none => []) ++
    (match r.requiresUserInput with
     | some b => [("requiresUserInput", if b then "true" else "false")]
     | none => []) ++
    (match r.userInput with
     | some a => [("userInput", jsonOfAnswer a)]
     | none => []))

/-- Message role (`MessageRole` of `src/ai/client.ts`). -/
inductive Role
  | user
  | assistant
deriving DecidableEq, Repr

/-- One content block of a gateway message: a text segment, a
tool-invocation request (`tool_use`) or a tool result
(`tool_result`). -/
inductive Block
  | text (s : String)
  | toolUse (id name : String) (input : ToolInput)
  | toolResult (toolUseId : String) (content : String)
deriving DecidableEq, Repr

/-- Message content: JavaScript `string | ContentBlock[]`. -/
inductive MContent
  | str (s : String)
  | blocks (bs : List Block)
deriving DecidableEq, Repr

/-- One conversation turn (`ConversationMessage` of `src/ai/client.ts`). -/
structure Message where
  role : Role
  content : MContent
deriving DecidableEq, Repr

/-- A model gateway response: ordered content blocks plus a stop reason,
kept as a string as in the SDK (`end_turn`, `tool_use`, `max_tokens`,
...). -/
structure Response where
  content : List Block
  stop_reason : String
deriving DecidableEq, Repr

/-- The tool-invocation requests of a block list, in emission order,
with their invocation ids and inputs — the `toolUseBlocks` collected by
`handleResponse` (lines 152-160 of `conversation.ts`). -/
def toolRequests (bs : List Block) : List (String × String × ToolInput) :=
  bs.filterMap (fun b =>
    match b with
    | .toolUse i n input => some (i, n, input)
    | _ => none)

/-- Whether the block list contains a text block (the `hasText` flag of
`handleResponse`). -/
def hasTextBlock (bs : List Block) : Bool :=
  bs.any (fun b =>
    match b with
    | .text _ => true
    | _ => false)

namespace ConversationManager

/-- `ConversationManager.handleResponse` (lines 144-211 of
`conversation.ts`) as a function from the current history and the
gateway response to the new history plus the `continueLoop` flag.  The
tool executor is passed as a total function, which `ToolExecutor.execute`
is (every handler catches its own errors): each tool use is dispatched in
order and the results are bundled into a single `user` message. -/
def handleResponse (exec : String → ToolInput → ToolResult)
    (messages : List Message) (response : Response) : List Message × Bool :=
  let toolUseBlocks := toolRequests response.content
  let hasText := hasTextBlock response.content
  if toolUseBlocks.length > 0 then
    let messages1 := messages ++ [⟨.assistant, .blocks response.content⟩]
    let toolResults := toolUseBlocks.map
      (fun t => Block.toolResult t.1 (jsonOfToolResult (exec t.2.1 t.2.2)))
    (messages1 ++ [⟨.user, .blocks toolResults⟩], true)
  else if hasText && response.stop_reason == "end_turn" then
    (messages ++ [⟨.assistant, .blocks response.content⟩], false)
  else
    (messages, response.stop_reason == "tool_use")

/-- The `while (continueLoop)` loop of
`ConversationManager.processConversation` (lines 114-142 of
`conversation.ts`).  The gateway is an oracle list consumed one entry
per round; `Except.error` is `sendMessage` throwing, which the `catch`
turns into `continueLoop = false` without touching the history.  An
exhausted oracle ends the run (the real loop would block on the
network). -/
def runRounds (exec : String → ToolInput → ToolResult)
    (messages : List Message) : List (JsM Response) → List Message
  | [] => messages
  | g :: rest =>
    match g with
    | .error _ => messages
    | .ok response =>
      let result := handleResponse exec messages response
      if result.2 then runRounds exec result.1 rest else result.1

/-- `ConversationManager.chat` (lines 103-112 of `conversation.ts`):
append the user message, then drive the round loop. -/
def chat (exec : String → ToolInput → ToolResult) (messages : List Message)
    (userMessage : String) (gateway : List (JsM Response)) : List Message :=
  runRounds exec (messages ++ [⟨.user, .str userMessage⟩]) gateway

/-- `ConversationManager.addContext` (lines 224-233 of
`conversation.ts`). -/
def addContext (messages : List Message) (context : String) : List Message :=
  messages ++
    [⟨.user, .str ("[Context] " ++ context)⟩,
     ⟨.assistant, .str "I understand the context. How can I help you?"⟩]

end ConversationManager

/-- The invocation id a `tool_result` block answers, if the block is
one. -/
def resultId : Block → Option String
  | .toolResult i _ => some i
  | _ => none

/-- The invocation ids of the tool-use blocks of a block list, in
order. -/
def toolUseIds (bs : List Block) : List String :=
  (toolRequests bs).map (fun t => t.1)

/-- Whether `m` is the bundling message answering a round of tool
requests with the given invocation ids: a `user` message whose content
is exactly one `tool_result` block per request, in the same order, each
carrying the id of the request it answers. -/
def answersRound (requestIds : List String) (m : Message) : Bool :=
  m.role == .user &&
  match m.content with
  | .blocks bs => bs.map resultId == requestIds.map some
  | .str _ => false

/-- The check the round-alternation invariant imposes on one message,
given the rest of the history: an `assistant` message with pending tool
requests must be immediately followed by its bundling answer. -/
def headOk (m : Message) (rest : List Message) : Bool :=
  match m.role, m.content with
  | .assistant, .blocks bs =>
    if (toolRequests bs).length > 0 then
      match rest with
      | [] => false
      | u :: _ => answersRound (toolUseIds bs) u
    else true
  | _, _ => true

/-- The round-alternation invariant of spec §8 over a whole history:
every `assistant` message containing K>0 tool-invocation requests is
immediately followed by exactly one `user` message with exactly K
matching tool results, in order. -/
def roundAlternation : List Message → Bool
  | [] => true
  | m :: rest => headOk m rest && roundAlternation rest

lemma headOk_user (c : MContent) (rest : List Message) :
    headOk ⟨.user, c⟩ rest = true := by
  cases c <;> simp [headOk]

lemma headOk_str (role : Role) (s : String) (rest : List Message) :
    headOk ⟨role, .str s⟩ rest = true := by
  cases role <;> simp [headOk]

lemma headOk_no_requests (bs : List Block) (rest : List Message)
    (h : (toolRequests bs).length = 0) :
    headOk ⟨.assistant, .blocks bs⟩ rest = true := by
  simp [headOk, h]

lemma headOk_mono (m : Message) (rest ext : List Message)
    (h : headOk m rest = true) : headOk m (rest ++ ext) = true := by
  obtain ⟨role, content⟩ := m
  cases role with
  | user => cases content <;> simp [headOk]
  | assistant =>
    cases content with
    | str _ => simp [headOk]
    | blocks bs =>
      by_cases htus : (toolRequests bs).length > 0
      · simp only [headOk, if_pos htus] at h ⊢
        cases rest with
        | nil => simp at h
        | cons u r => simpa using h
      · simp [headOk, htus]

lemma roundAlternation_append (xs ys : List Message)
    (h1 : roundAlternation xs = true) (h2 : roundAlternation ys = true) :
    roundAlternation (xs ++ ys) = true := by
  induction xs with
  | nil => simpa using h2
  | cons m xs ih =>
    simp only [roundAlternation, Bool.and_eq_true] at h1
    simp only [List.cons_append, roundAlternation, Bool.and_eq_true]
    exact ⟨headOk_mono m xs ys h1.1, ih h1.2⟩

lemma roundAlternation_single (m : Message) (h : headOk m [] = true) :
    roundAlternation [m] = true := by
  simp [roundAlternation, h]

lemma roundAlternation_pair (a u : Message) (h1 : headOk a [u] = true)
    (h2 : headOk u [] = true) : roundAlternation [a, u] = true := by
  simp [roundAlternation, h1, h2]

/-- The bundling message built by the tool branch of `handleResponse`
answers the requests of the assistant message it follows: one result
per request, same order, same ids. -/
lemma answersRound_bundle (exec : String → ToolInput → ToolResult)
    (bs : List Block) :
    answersRound (toolUseIds bs)
      ⟨.user, .blocks ((toolRequests bs).map
        (fun t => Block.toolResult t.1 (jsonOfToolResult (exec t.2.1 t.2.2))))⟩
      = true := by
  simp [answersRound, toolUseIds, resultId, List.map_map, Function.comp]

namespace ConversationManager

lemma handleResponse_tool (exec : String → ToolInput → ToolResult)
    (messages : List Message) (response : Response)
    (h : (toolRequests response.content).length > 0) :
    handleResponse exec messages response =
      (messages ++
        [⟨.assistant, .blocks response.content⟩,
         ⟨.user, .blocks ((toolRequests response.content).map
           (fun t => Block.toolResult t.1 (jsonOfToolResult (exec t.2.1 t.2.2))))⟩],
       true) := by
  simp [handleResponse, h]

lemma handleResponse_final (exec : String → ToolInput → ToolResult)
    (messages : List Message) (response : Response)
    (h1 : (toolRequests response.content).length = 0)
    (h2 : hasTextBlock response.content = true)
    (h3 : response.stop_reason = "end_turn") :
    handleResponse exec messages response =
      (messages ++ [⟨.assistant, .blocks response.content⟩], false) := by
  simp [handleResponse, h1, h2, h3]

lemma handleResponse_fallthrough (exec : String → ToolInput → ToolResult)
    (messages : List Message) (response : Response)
    (h1 : (toolRequests response.content).length = 0)
    (h2 : ¬(hasTextBlock response.content = true ∧ response.stop_reason = "end_turn")) :
    handleResponse exec messages response =
      (messages, response.stop_reason == "tool_use") := by
  by_cases ht : hasTextBlock response.content = true
  · have hs : response.stop_reason ≠ "end_turn" := fun hc => h2 ⟨ht, hc⟩
    simp [handleResponse, h1, ht, hs]
  · simp [handleResponse, h1, ht]

/-- Every round of the loop preserves the round-alternation invariant. -/
lemma runRounds_preserves (exec : String → ToolInput → ToolResult)
    (gateway : List (JsM Response)) :
    ∀ messages : List Message, roundAlternation messages = true →
      roundAlternation (runRounds exec messages gateway) = true := by
  induction gateway with
  | nil => intro messages h; simpa [runRounds] using h
  | cons g rest ih =>
    intro messages h
    cases g with
    | error e => simpa [runRounds] using h
    | ok response =>
      by_cases htus : (toolRequests response.content).length > 0
      · rw [runRounds, handleResponse_tool exec messages response htus]
        simp only [ite_true]
        refine ih _ (roundAlternation_append _ _ h ?_)
        refine roundAlternation_pair _ _ ?_ (headOk_user _ _)
        simp only [headOk, if_pos htus]
        exact answersRound_bundle exec response.content
      · have h0 : (toolRequests response.content).length = 0 := by omega
        by_cases hdone : hasTextBlock response.content = true ∧
            response.stop_reason = "end_turn"
        · rw [runRounds, handleResponse_final exec messages response h0 hdone.1 hdone.2]
          simp only [Bool.false_eq_true, ite_false]
          exact roundAlternation_append _ _ h
            (roundAlternation_single _ (headOk_no_requests _ _ h0))
        · rw [runRounds, handleResponse_fallthrough exec messages response h0 hdone]
          by_cases hcont : response.stop_reason == "tool_use"
          · simp only [hcont, ite_true]
            exact ih _ h
          · simp only [hcont]
            simpa using h

end ConversationManager

/-- C1: every `assistant` message holding K>0 tool-invocation requests
that a completed `chat()` call leaves in the history is immediately
followed by exactly one `user` message with exactly K tool results,
same order, matching invocation ids: `chat` preserves the
round-alternation invariant, whatever the executor, the prior history
and the gateway responses (including thrown gateway errors and any stop
reasons). -/
theorem c1_round_alternation (exec : String → ToolInput → ToolResult)
    (messages : List Message) (userMessage : String)
    (gateway : List (JsM Response))
    (h : roundAlternation messages = true) :
    roundAlternation (ConversationManager.chat exec messages userMessage gateway)
      = true := by
  refine ConversationManager.runRounds_preserves exec gateway _ ?_
  exact roundAlternation_append _ _ h
    (roundAlternation_single _ (headOk_user _ _))

/-- C1 witness: a concrete two-round exchange (one `list_stories` call,
then a final text answer) starting from the empty history. -/
theorem c1_round_alternation_witness :
    roundAlternation [] = true ∧
    roundAlternation (ConversationManager.chat
      (fun _ _ => { success := false, error := some "store offline" })
      [] "List all stories"
      [Except.ok ⟨[Block.text "Listing now.",
          Block.toolUse "toolu_1" "list_stories" (ToolInput.listStories ⟨none, none⟩)],
         "tool_use"⟩,
       Except.ok ⟨[Block.text "No stories found."], "end_turn"⟩]) = true :=
  ⟨rfl,
   c1_round_alternation
     (fun _ _ => { success := false, error := some "store offline" })
     [] "List all stories"
     [Except.ok ⟨[Block.text "Listing now.",
         Block.toolUse "toolu_1" "list_stories" (ToolInput.listStories ⟨none, none⟩)],
        "tool_use"⟩,
      Except.ok ⟨[Block.text "No stories found."], "end_turn"⟩]
     rfl⟩

/-- C3 counterexample: a gateway response with zero tool-invocation
items and stop reason `end_turn` but no text block (empty content) is
dropped: the loop terminates without appending any `assistant` message,
because lines 199-207 of `conversation.ts` additionally require
`hasText`. -/
theorem c3_counterexample :
    (toolRequests ([] : List Block)).length = 0 ∧
    (⟨[], "end_turn"⟩ : Response).stop_reason = "end_turn" ∧
    ConversationManager.handleResponse (fun _ _ => { success := true }) []
      ⟨[], "end_turn"⟩ = ([], false) :=
  ⟨rfl, rfl, rfl⟩

/-- C3 as amended: for a response with zero tool-invocation requests, at
least one text block, and stop reason `end_turn`, exactly one
`assistant` message (the response with its content blocks) is appended
and the loop terminates after that round, consuming no further gateway
responses. -/
theorem c3_no_tool_termination (exec : String → ToolInput → ToolResult)
    (messages : List Message) (response : Response)
    (rest : List (JsM Response))
    (h1 : (toolRequests response.content).length = 0)
    (h2 : hasTextBlock response.content = true)
    (h3 : response.stop_reason = "end_turn") :
    ConversationManager.handleResponse exec messages response =
      (messages ++ [⟨.assistant, .blocks response.content⟩], false) ∧
    ConversationManager.runRounds exec messages (Except.ok response :: rest) =
      messages ++ [⟨.assistant, .blocks response.content⟩] := by
  have hfin := ConversationManager.handleResponse_final exec messages response h1 h2 h3
  refine ⟨hfin, ?_⟩
  rw [ConversationManager.runRounds, hfin]
  simp

/-- C3 witness: a concrete final text answer. -/
theorem c3_no_tool_termination_witness :
    (toolRequests [Block.text "All done."]).length = 0 ∧
    hasTextBlock [Block.text "All done."] = true ∧
    (⟨[Block.text "All done."], "end_turn"⟩ : Response).stop_reason = "end_turn" ∧
    ConversationManager.handleResponse (fun _ _ => { success := true }) []
        ⟨[Block.text "All done."], "end_turn"⟩ =
      ([⟨.assistant, .blocks [Block.text "All done."]⟩], false) :=
  ⟨rfl, rfl, rfl,
   (c3_no_tool_termination (fun _ _ => { success := true }) []
     ⟨[Block.text "All done."], "end_turn"⟩ [] rfl rfl rfl).1⟩

/-- C4 counterexample: on a response with zero tool-invocation items and
stop reason `max_tokens` (neither `end_turn` nor `tool_use`),
`handleResponse` returns `continueLoop = false` — the loop terminates
instead of issuing another round, because line 210 of `conversation.ts`
continues only when the stop reason is exactly `tool_use`. -/
theorem c4_counterexample :
    (toolRequests [Block.text "truncated"]).length = 0 ∧
    (⟨[Block.text "truncated"], "max_tokens"⟩ : Response).stop_reason = "max_tokens" ∧
    ConversationManager.handleResponse (fun _ _ => { success := true }) []
      ⟨[Block.text "truncated"], "max_tokens"⟩ = ([], false) :=
  ⟨rfl, rfl, rfl⟩

/-- C4 as amended: on a response with zero tool-invocation items whose
stop reason is neither `end_turn` nor `tool_use` (e.g. `max_tokens`),
the orchestrator terminates the `chat()` call without appending a
message and without consuming further gateway responses; the defensive
continue applies only to the stop reason `tool_use`. -/
theorem c4_fallthrough_terminates (exec : String → ToolInput → ToolResult)
    (messages : List Message) (response : Response)
    (rest : List (JsM Response))
    (h1 : (toolRequests response.content).length = 0)
    (h2 : response.stop_reason ≠ "end_turn")
    (h3 : response.stop_reason ≠ "tool_use") :
    ConversationManager.handleResponse exec messages response = (messages, false) ∧
    ConversationManager.runRounds exec messages (Except.ok response :: rest) =
      messages := by
  have hft := ConversationManager.handleResponse_fallthrough exec messages response h1
    (fun hc => h2 hc.2)
  have hbeq : (response.stop_reason == "tool_use") = false := by
    simpa using h3
  rw [hbeq] at hft
  refine ⟨hft, ?_⟩
  rw [ConversationManager.runRounds, hft]
  simp

/-- C4 witness: a concrete truncated response followed by an unconsumed
gateway entry. -/
theorem c4_fallthrough_terminates_witness :
    (toolRequests [Block.text "truncated"]).length = 0 ∧
    ("max_tokens" : String) ≠ "end_turn" ∧
    ("max_tokens" : String) ≠ "tool_use" ∧
    ConversationManager.runRounds (fun _ _ => { success := true }) []
        [Except.ok ⟨[Block.text "truncated"], "max_tokens"⟩,
         Except.ok ⟨[Block.text "late"], "end_turn"⟩] = [] :=
  ⟨rfl, by decide, by decide,
   (c4_fallthrough_terminates (fun _ _ => { success := true }) []
     ⟨[Block.text "truncated"], "max_tokens"⟩
     [Except.ok ⟨[Block.text "late"], "end_turn"⟩]
     rfl (by decide) (by decide)).2⟩

/-- C6: if the gateway throws during a round, the loop aborts at once —
the history is left exactly as it stood at the end of the last completed
round, no partial assistant message or tool-result message from the
failing round is appended, and the remaining gateway responses are never
consumed (no retry).  Stated both for a failure on the first round of a
run and for a failure on the round after a completed round. -/
theorem c6_gateway_error_purity (exec : String → ToolInput → ToolResult)
    (messages : List Message) (e : String) (rest : List (JsM Response))
    (response : Response)
    (hcont : (ConversationManager.handleResponse exec messages response).2 = true) :
    ConversationManager.runRounds exec messages (Except.error e :: rest) = messages ∧
    ConversationManager.runRounds exec messages
        (Except.ok response :: Except.error e :: rest) =
      (ConversationManager.handleResponse exec messages response).1 := by
  refine ⟨rfl, ?_⟩
  rw [ConversationManager.runRounds, hcont]
  simp [ConversationManager.runRounds]

/-- C6 witness: a first round of tool use completes, the gateway throws
on round 2, and the history is exactly the round-1 history. -/
theorem c6_gateway_error_purity_witness :
    (ConversationManager.handleResponse (fun _ _ => { success := false })
        [] ⟨[Block.toolUse "toolu_9" "list_features" ToolInput.listFeatures],
            "tool_use"⟩).2 = true ∧
    ConversationManager.runRounds (fun _ _ => { success := false })
        []
        [Except.ok ⟨[Block.toolUse "toolu_9" "list_features" ToolInput.listFeatures],
            "tool_use"⟩,
         Except.error "network failure"] =
      (ConversationManager.handleResponse (fun _ _ => { success := false })
        [] ⟨[Block.toolUse "toolu_9" "list_features" ToolInput.listFeatures],
            "tool_use"⟩).1 :=
  ⟨rfl,
   (c6_gateway_error_purity (fun _ _ => { success := false }) [] "network failure"
     [] ⟨[Block.toolUse "toolu_9" "list_features" ToolInput.listFeatures],
         "tool_use"⟩ rfl).2⟩

/-- An environment in which every interactive prompt throws the
inquirer cancellation error (the user aborts the prompt), and the store
is empty. -/
def envCancel : Env :=
  { now := "2024-01-01T00:00:00.000Z"
    storageCreateStory := fun _ => .ok ()
    storageUpdateStory := fun _ => .ok ()
    storageGetStory := fun _ _ => .ok none
    storageListStories := fun _ => .ok []
    storageCreateFeature := fun _ => .ok ()
    storageListFeatures := .ok []
    uiAskSelect := fun _ _ => .error "User force closed the prompt"
    uiAskMultiSelect := fun _ _ => .error "User force closed the prompt"
    uiAskQuestion := fun _ => .error "User force closed the prompt"
    uiAskConfirm := fun _ _ => .error "User force closed the prompt" }

/-- C2 counterexample: the user cancels the interactive prompt inside
`ask_user_question`, yet `ToolExecutor.execute` resolves normally with a
`ToolResult` (`Except.ok`, `success := false`) instead of letting the
cancellation propagate as a thrown error — the handler's
`try`/`catch` (lines 521-573 of `definitions.ts`) swallows it. -/
theorem c2_counterexample :
    ToolExecutor.execute "ask_user_question"
      (ToolInput.askUserQuestion ⟨"Pick a persona", [⟨"Admin", "admin", none⟩], none, none⟩)
      envCancel =
    Except.ok { success := false
                error := some "Failed to get user input: User force closed the prompt" } :=
  rfl

/-- C2 counterexample, `present_draft` side: the user cancels the
confirmation prompt and the handler converts the cancellation into a
`ToolResult` rather than rethrowing.  (Second half of the same claim;
kept as one statement with the conjunction in the main counterexample
would also work, but the claim names both handlers.) -/
theorem c2_counterexample_draft :
    ToolExecutor.execute "present_draft"
      (ToolInput.presentDraft ⟨"T", "user", "goal", "benefit", [], none, none, none⟩)
      envCancel =
    Except.ok { success := false
                error := some "Failed to present draft: User force closed the prompt" } :=
  rfl

/-- C2 as amended: when the user cancels the interactive prompt inside
the `ask_user_question` handler, the cancellation does NOT propagate out
of `ToolExecutor.execute` as a thrown error; the handler's `try`/`catch`
converts it into the tool result
`{success: false, error: "Failed to get user input: " + message}` and
`execute` resolves normally. -/
theorem c2_cancellation_caught (i : AskUserQuestionInput) (env : Env) (e : String)
    (h1 : i.multiSelect.getD false = false)
    (h2 : env.uiAskSelect i.question
        (if i.allowCustom.getD true then i.options ++ [ToolExecutor.customOption]
         else i.options) = Except.error e) :
    ToolExecutor.execute "ask_user_question" (ToolInput.askUserQuestion i) env =
      Except.ok { success := false
                  error := some ("Failed to get user input: " ++ e) } := by
  show ToolExecutor.askUserQuestion (ToolInput.askUserQuestion i) env = _
  rw [ToolExecutor.askUserQuestion, ToolExecutor.askUserQuestionBody]
  simp only [ToolExecutor.expectAskUserQuestion, h1, h2, Bool.false_eq_true,
    ite_false, bind, Except.bind, ToolExecutor.tryCatchResult]

/-- C2 witness: the concrete cancelled prompt of `envCancel`. -/
theorem c2_cancellation_caught_witness :
    ((⟨"Pick a persona", [⟨"Admin", "admin", none⟩], none, none⟩ :
        AskUserQuestionInput).multiSelect.getD false = false) ∧
    envCancel.uiAskSelect "Pick a persona"
        (if (none : Option Bool).getD true then
          [⟨"Admin", "admin", none⟩] ++ [ToolExecutor.customOption]
         else [⟨"Admin", "admin", none⟩]) =
      Except.error "User force closed the prompt" ∧
    ToolExecutor.execute "ask_user_question"
      (ToolInput.askUserQuestion
        ⟨"Pick a persona", [⟨"Admin", "admin", none⟩], none, none⟩) envCancel =
      Except.ok { success := false
                  error := some ("Failed to get user input: " ++
                    "User force closed the prompt") } :=
  ⟨rfl, rfl,
   c2_cancellation_caught
     ⟨"Pick a persona", [⟨"Admin", "admin", none⟩], none, none⟩
     envCancel "User force closed the prompt" rfl rfl⟩

/-- C7: dispatching any tool name outside the nine registered ones
returns the unknown-tool failure result, for every input object and
environment, without throwing (`Except.ok`). -/
theorem c7_unknown_tool (toolName : String) (input : ToolInput) (env : Env)
    (h : toolName ∉ registeredToolNames) :
    ToolExecutor.execute toolName input env =
      Except.ok { success := false
                  error := some ("Unknown tool: " ++ toolName) } := by
  simp only [registeredToolNames, List.mem_cons, List.not_mem_nil, or_false,
    not_or] at h
  obtain ⟨n1, n2, n3, n4, n5, n6, n7, n8, n9⟩ := h
  simp [ToolExecutor.execute, n1, n2, n3, n4, n5, n6, n7, n8, n9]

/-- C7 witness: the unregistered name of spec §8, on an arbitrary input
object and the cancelled-prompt environment. -/
theorem c7_unknown_tool_witness :
    ("not_a_real_tool" ∉ registeredToolNames) ∧
    ToolExecutor.execute "not_a_real_tool" ToolInput.other envCancel =
      Except.ok { success := false
                  error := some ("Unknown tool: " ++ "not_a_real_tool") } :=
  ⟨by decide, c7_unknown_tool "not_a_real_tool" ToolInput.other envCancel (by decide)⟩

lemma tryCatchResult_total (prefixMsg : String) (body : JsM ToolResult) :
    ∃ r : ToolResult, ToolExecutor.tryCatchResult prefixMsg body = Except.ok r := by
  cases body <;> exact ⟨_, rfl⟩

/-- C10: `ToolExecutor.execute` is total — for every tool name
(registered or not), every input object and every environment (however
the store or the prompts throw, including interactive-prompt
cancellation), it resolves to a `ToolResult` and never rethrows: each
handler is its body wrapped in the `try`/`catch` that converts any
thrown error into `{success: false, error: message}`. -/
theorem c10_execute_total (toolName : String) (input : ToolInput) (env : Env) :
    ∃ r : ToolResult, ToolExecutor.execute toolName input env = Except.ok r := by
  unfold ToolExecutor.execute
  repeat' split
  · exact tryCatchResult_total _ _
  · exact tryCatchResult_total _ _
  · exact tryCatchResult_total _ _
  · exact tryCatchResult_total _ _
  · exact tryCatchResult_total _ _
  · exact tryCatchResult_total _ _
  · exact tryCatchResult_total _ _
  · exact tryCatchResult_total _ _
  · exact tryCatchResult_total _ _
  · exact ⟨_, rfl⟩

/-- A well-formed story (3 acceptance criteria, no dependencies, a
benefit clause) with no open questions: its negotiable dimension scores
6, yet no suggestion is generated for it. -/
def storyNoOpenQuestions : Story :=
  { id := "s1"
    title := "Reset password"
    type := "user-story"
    status := "draft"
    priority := "medium"
    feature := none
    persona := none
    asA := some "registered user"
    iWant := some "to reset my password"
    soThat := some "I can regain access"
    acceptanceCriteria := [⟨"email sent", false⟩, ⟨"link expires", false⟩,
      ⟨"new password accepted", false⟩]
    openQuestions := []
    edgeCases := []
    dependencies := []
    relatedStories := []
    estimate := none
    tags := []
    createdAt := "2024-01-01T00:00:00.000Z"
    updatedAt := "2024-01-01T00:00:00.000Z" }

/-- C5 counterexample: the negotiable dimension of
`storyNoOpenQuestions` scores 6 (< 7), yet the suggestions list is empty
— lines 678-693 of `definitions.ts` push suggestions for five of the
six dimensions and skip negotiable entirely, so the claim "a suggestion
appears for every dimension scoring below 7" is false. -/
theorem c5_counterexample :
    (ToolExecutor.investAnalysis storyNoOpenQuestions).negotiable.score < 7 ∧
    (ToolExecutor.investAnalysis storyNoOpenQuestions).suggestions = [] :=
  ⟨by decide, rfl⟩

/-- C5 as amended: a suggestion is appended for every dimension OTHER
THAN negotiable that scores below 7 — for each of independent, valuable,
estimable, small and testable, the fixed per-dimension message is in the
suggestions list whenever that dimension scores below 7; the negotiable
dimension has no suggestion message. -/
theorem c5_low_dimension_suggestions (story : Story) (d : InvestDim) (s : String)
    (h1 : dimSuggestionMessage d = some s)
    (h2 : dimScore (ToolExecutor.investAnalysis story) d < 7) :
    s ∈ (ToolExecutor.investAnalysis story).suggestions := by
  cases d with
  | negotiable => simp [dimSuggestionMessage] at h1
  | independent =>
    simp only [dimSuggestionMessage, Option.some.injEq] at h1
    subst h1
    simp only [dimScore, ToolExecutor.investAnalysis] at h2 ⊢
    simp [ToolExecutor.investSuggestions, h2]
  | valuable =>
    simp only [dimSuggestionMessage, Option.some.injEq] at h1
    subst h1
    simp only [dimScore, ToolExecutor.investAnalysis] at h2 ⊢
    simp [ToolExecutor.investSuggestions, h2]
  | estimable =>
    simp only [dimSuggestionMessage, Option.some.injEq] at h1
    subst h1
    simp only [dimScore, ToolExecutor.investAnalysis] at h2 ⊢
    simp [ToolExecutor.investSuggestions, h2]
  | small =>
    simp only [dimSuggestionMessage, Option.some.injEq] at h1
    subst h1
    simp only [dimScore, ToolExecutor.investAnalysis] at h2 ⊢
    simp [ToolExecutor.investSuggestions, h2]
  | testable =>
    simp only [dimSuggestionMessage, Option.some.injEq] at h1
    subst h1
    simp only [dimScore, ToolExecutor.investAnalysis] at h2 ⊢
    simp [ToolExecutor.investSuggestions, h2]

/-- A story with one declared dependency, for exercising a low
independent score. -/
def storyWithDependency : Story :=
  { storyNoOpenQuestions with id := "s2", dependencies := ["s1"] }

/-- C5 witness: the story with one dependency scores 5 on independent
and its fixed suggestion message is produced. -/
theorem c5_low_dimension_suggestions_witness :
    dimSuggestionMessage InvestDim.independent =
      some "Consider reducing dependencies on other stories" ∧
    dimScore (ToolExecutor.investAnalysis storyWithDependency)
      InvestDim.independent < 7 ∧
    "Consider reducing dependencies on other stories" ∈
      (ToolExecutor.investAnalysis storyWithDependency).suggestions :=
  ⟨rfl, by decide,
   c5_low_dimension_suggestions storyWithDependency InvestDim.independent
     "Consider reducing dependencies on other stories" rfl (by decide)⟩

/-- The fixed example record of spec §8: 0 dependencies, `soThat` set,
4 acceptance criteria, 1 open question. -/
def exampleStory : Story :=
  { id := "example"
    title := "Example story"
    type := "user-story"
    status := "draft"
    priority := "medium"
    feature := none
    persona := none
    asA := some "user"
    iWant := some "a thing"
    soThat := some "I benefit"
    acceptanceCriteria := [⟨"a", false⟩, ⟨"b", false⟩, ⟨"c", false⟩, ⟨"d", false⟩]
    openQuestions := ["open question"]
    edgeCases := []
    dependencies := []
    relatedStories := []
    estimate := none
    tags := []
    createdAt := "2024-01-01T00:00:00.000Z"
    updatedAt := "2024-01-01T00:00:00.000Z" }

/-- C8: the INVEST analysis is a pure function of the record (being a
Lean function, the same record always yields the same scores); the
Independent score is 10 when there are no dependencies, else 5; the
Testable score is 8 with at least one acceptance criterion, else 2; the
Small score is 8 with at most 7 acceptance criteria, else 4; the overall
score is the rounded arithmetic mean of the six dimension scores; and
the example record (0 dependencies, `soThat` set, 4 acceptance criteria,
1 open question) scores [10, 8, 8, 8, 8, 8] with overall 8. -/
theorem c8_invest_scoring :
    (∀ story : Story,
      (ToolExecutor.investAnalysis story).independent.score =
        (if story.dependencies.length = 0 then 10 else 5) ∧
      (ToolExecutor.investAnalysis story).testable.score =
        (if story.acceptanceCriteria.length > 0 then 8 else 2) ∧
      (ToolExecutor.investAnalysis story).small.score =
        (if story.acceptanceCriteria.length ≤ 7 then 8 else 4) ∧
      (ToolExecutor.investAnalysis story).overallScore =
        mathRoundDiv6
          ((ToolExecutor.investAnalysis story).independent.score +
            (ToolExecutor.investAnalysis story).negotiable.score +
            (ToolExecutor.investAnalysis story).valuable.score +
            (ToolExecutor.investAnalysis story).estimable.score +
            (ToolExecutor.investAnalysis story).small.score +
            (ToolExecutor.investAnalysis story).testable.score)) ∧
    ((ToolExecutor.investAnalysis exampleStory).independent.score = 10 ∧
      (ToolExecutor.investAnalysis exampleStory).negotiable.score = 8 ∧
      (ToolExecutor.investAnalysis exampleStory).valuable.score = 8 ∧
      (ToolExecutor.investAnalysis exampleStory).estimable.score = 8 ∧
      (ToolExecutor.investAnalysis exampleStory).small.score = 8 ∧
      (ToolExecutor.investAnalysis exampleStory).testable.score = 8 ∧
      (ToolExecutor.investAnalysis exampleStory).overallScore = 8) := by
  constructor
  · intro story
    refine ⟨?_, ?_, ?_, rfl⟩
    · by_cases h : story.dependencies.length = 0 <;>
        simp [ToolExecutor.investAnalysis, ToolExecutor.independentDim, h]
    · by_cases h : story.acceptanceCriteria.length > 0 <;>
        simp [ToolExecutor.investAnalysis, ToolExecutor.testableDim, h]
    · by_cases h : story.acceptanceCriteria.length ≤ 7 <;>
        simp [ToolExecutor.investAnalysis, ToolExecutor.smallDim, h]
  · exact ⟨by decide, by decide, by decide, by decide, by decide, by decide,
      by decide⟩

/-- C9: `search_stories` keeps exactly the stories, drawn from the full
story list across every feature, whose search text — title, `asA`,
`iWant`, `soThat`, acceptance-criterion texts, open questions, edge
cases and tags — contains the query, comparing case-insensitively
(both sides lower-cased). -/
theorem c9_search_membership (query : String) (allStories : List Story)
    (story : Story) :
    story ∈ StorageManager.searchStories query allStories ↔
      story ∈ allStories ∧
        StorageManager.strIncludes (StorageManager.searchText story)
          (strToLower query) = true := by
  simp [StorageManager.searchStories, List.mem_filter]
